import Mathlib

/-!
# Verification of `token-counter-cli` budget and counting logic

Shallow embedding of `token_counter_cli/budget.py` and
`token_counter_cli/counting.py` (with the data model from `models.py`,
`cli.py` and `input.py`), together with theorems settling the spec claims.

Numeric modelling notes.

* Python integers are unbounded: they are embedded as `ℤ`.
* `--reserve-pct` is a Python float; it is embedded as the exact rational
  value of that IEEE-754 double.
* The percentage computation `round(input_tokens / effective_limit, 2)` is
  float-sensitive: `int / int` true division returns the IEEE-754 double
  nearest to the exact quotient, and `round(x, 2)` rounds that double to the
  closest two-decimal value with ties going to the even hundredth digit.
  The conversion to double is modelled exactly by `toDouble` (round to
  nearest, ties to even, 53-bit significand; sub-normal underflow and
  overflow to infinity are outside the modelled range and do not occur at
  any input considered in a theorem below).  The two-decimal value `k/100`
  is stored exactly; Python stores the nearest double of `k/100`, but the
  map to nearest doubles is strictly monotone on the hundredths grid, so all
  later comparisons against the literals `0.80` and `0.95` (both on the
  grid) agree with the exact model.
* The reserve computation `int(effective_limit * reserve_pct)` is modelled
  with the same double semantics: the integer operand is converted to the
  nearest double, the multiplication rounds the exact product to the nearest
  double, and `int()` truncates the result toward zero.
-/

set_option allowUnsafeReducibility true in
attribute [semireducible] Rat.mul Rat.inv Rat.add Rat.sub

namespace TokenCounterCLI

/-! ## Exact model of the IEEE-754 double rounding used by Python -/

/-- Two to the power `e` in `ℚ`, for an integer exponent `e`. -/
def twoPow (e : ℤ) : ℚ :=
  if 0 ≤ e then ((2 ^ e.toNat : ℕ) : ℚ) else 1 / ((2 ^ (-e).toNat : ℕ) : ℚ)

/-- Fuelled binary logarithm on `ℕ` (structural recursion, so that closed
instances reduce inside the kernel). -/
def log2fuel : ℕ → ℕ → ℕ
  | 0, _ => 0
  | fuel + 1, n => if n ≤ 1 then 0 else log2fuel fuel (n / 2) + 1

/-- Floor of the binary logarithm for `n ≥ 1` (and `0` for `n = 0`). -/
def nlog2 (n : ℕ) : ℕ := log2fuel n n

/-- Binary exponent of a positive rational: the unique `e` with
`2 ^ e ≤ q < 2 ^ (e + 1)` (meaningful for `0 < q`). -/
def qexp (q : ℚ) : ℤ :=
  let e0 : ℤ := (nlog2 q.num.toNat : ℤ) - (nlog2 q.den : ℤ)
  if twoPow e0 ≤ q then e0 else e0 - 1

/-- Round a rational to the nearest integer, ties to even — the rounding
rule of IEEE-754 round-to-nearest and of CPython's `round`.  Written with
integer arithmetic on `num`/`den` (here `q.num / q.den` and `q.num % q.den`
are floor division and its remainder, since `q.den > 0`) so that closed
instances reduce inside the kernel. -/
def rne (q : ℚ) : ℤ :=
  if 2 * (q.num % (q.den : ℤ)) < (q.den : ℤ) then q.num / (q.den : ℤ)
  else if (q.den : ℤ) < 2 * (q.num % (q.den : ℤ)) then q.num / (q.den : ℤ) + 1
  else if (q.num / (q.den : ℤ)) % 2 = 0 then q.num / (q.den : ℤ)
  else q.num / (q.den : ℤ) + 1

/-- The IEEE-754 binary64 value nearest to `q` (round to nearest, ties to
even), as an exact rational.  Faithful on the normal range; sub-normal and
overflowing magnitudes are outside the modelled range. -/
def toDouble (q : ℚ) : ℚ :=
  if q = 0 then 0
  else
    let a := if q < 0 then -q else q
    let e := qexp a
    let m := rne (a * twoPow (52 - e))
    (if 0 < q then (1 : ℚ) else -1) * (m : ℚ) * twoPow (e - 52)

/-- The behaviour of CPython `round(x, 2)` on a double `x`: the closest multiple of `1/100`,
ties to the even hundredth.  (Python returns the double nearest that decimal;
we keep the decimal itself, see the numeric modelling notes.) -/
def pyRound2 (x : ℚ) : ℚ := (rne (100 * x) : ℚ) / 100

/-- Truncation toward zero, the behaviour of Python's `int()` on a number
(floor division of `|num|` by `den`, with the sign restored). -/
def ratTrunc (q : ℚ) : ℤ :=
  if 0 ≤ q.num then q.num / (q.den : ℤ) else -((-q.num) / (q.den : ℤ))

/-! ## Data model (`models.py`, `cli.py`, `input.py`, result dataclasses) -/

/-- Embeds `models.ModelDefinition`. -/
structure ModelDefinition where
  name : String
  context_limit : ℤ
  tokenizer_type : String
deriving DecidableEq

/-- Embeds `cli.CLIConfig`.  The input-source fields (`input_source`, `input_path`)
concern file I/O only and are not used by any claim, so they are elided. -/
structure CLIConfig where
  models : List String
  max_tokens : Option ℤ
  reserve : Option ℤ
  reserve_pct : ℚ
  json_output : Bool
deriving DecidableEq

/-- One element of a message's array-valued `content` (`input.py` accepts an
arbitrary JSON list here).  `textObj` is a JSON object carrying a
string-valued `"text"` field; `other` covers every other runtime value
(plain non-string items, objects without a string `"text"` field, …). -/
inductive ContentItem where
  | str (s : String)
  | textObj (text : String)
  | other
deriving DecidableEq

/-- Runtime value of `Message.content`: a string, a list of items, or any
other JSON value (the parser does not restrict the content's type). -/
inductive MsgContent where
  | str (s : String)
  | arr (items : List ContentItem)
  | other
deriving DecidableEq

/-- Embeds `input.Message`. -/
structure Message where
  role : String
  content : MsgContent
deriving DecidableEq

/-- Embeds `input.InputData`. -/
structure InputData where
  content : String
  messages : Option (List Message)
  source : String
deriving DecidableEq

/-- Embeds `counting.CountingResult`. -/
structure CountingResult where
  model : String
  input_tokens : ℤ
  error : Option String := none
  is_approximate : Bool := false
deriving DecidableEq

/-- Embeds `budget.BudgetResult`. -/
structure BudgetResult where
  model : String
  input_tokens : ℤ
  context_limit : ℤ
  effective_limit : ℤ
  reserve : ℤ
  remaining_tokens : ℤ
  pct_used : ℚ
  warning : Option String := none
  error : Option String := none
  is_approximate : Bool := false
deriving DecidableEq

/-- Python truthiness of an `Optional[str]`: `None` and the empty string are
falsy, every other string is truthy. -/
def strOptTruthy : Option String → Bool
  | none => false
  | some s => s != ""

/-! ## `budget.py` -/

/-- Embeds `BudgetAnalyzer._calculate_effective_limit`. -/
def calculateEffectiveLimit (model : ModelDefinition) (config : CLIConfig) : ℤ :=
  match config.max_tokens with
  | some mt => min model.context_limit mt
  | none => model.context_limit

/-- Embeds `BudgetAnalyzer._calculate_reserve`.  The percentage branch is Python's
`int(effective_limit * config.reserve_pct)`: the integer is first converted
to the nearest double, the multiplication rounds the product to the nearest
double again, and `int()` then truncates toward zero. -/
def calculateReserve (effective_limit : ℤ) (config : CLIConfig) : ℤ :=
  match config.reserve with
  | some r => r
  | none => ratTrunc (toDouble (toDouble (effective_limit : ℚ) * config.reserve_pct))

/-- The `pct_used` computation inside `analyze_budget`: the zero-division
guard, and otherwise `round(input_tokens / effective_limit, 2)` (see the
numeric modelling notes). -/
def pctUsedCalc (input_tokens effective_limit : ℤ) : ℚ :=
  if effective_limit = 0 then
    if input_tokens = 0 then (0 : ℚ) else 99999 / 100
  else
    pyRound2 (toDouble ((input_tokens : ℚ) / (effective_limit : ℚ)))

/-- Embeds `BudgetAnalyzer._check_thresholds`, returning `(warning, error)`. -/
def checkThresholds (pct_used : ℚ) (remaining_tokens : ℤ) :
    Option String × Option String :=
  if pct_used ≥ 95 / 100 ∨ remaining_tokens < 0 then
    (none, some "error: exceeds budget")
  else if pct_used ≥ 80 / 100 then
    (some "warning: near limit", none)
  else
    (none, none)

/-- Embeds `BudgetAnalyzer.analyze_budget`. -/
def analyze_budget (counting_result : CountingResult) (model : ModelDefinition)
    (config : CLIConfig) : BudgetResult :=
  if strOptTruthy counting_result.error then
    { model := model.name
      input_tokens := 0
      context_limit := model.context_limit
      effective_limit := model.context_limit
      reserve := 0
      remaining_tokens := 0
      pct_used := 0
      error := counting_result.error
      is_approximate := counting_result.is_approximate }
  else
    let effective_limit := calculateEffectiveLimit model config
    let reserve := calculateReserve effective_limit config
    let remaining_tokens := effective_limit - reserve - counting_result.input_tokens
    let pct_used := pctUsedCalc counting_result.input_tokens effective_limit
    let wr := checkThresholds pct_used remaining_tokens
    { model := model.name
      input_tokens := counting_result.input_tokens
      context_limit := model.context_limit
      effective_limit := effective_limit
      reserve := reserve
      remaining_tokens := remaining_tokens
      pct_used := pct_used
      warning := wr.1
      error := wr.2
      is_approximate := counting_result.is_approximate }

/-! ## `counting.py` -/

/-- The behaviour of `tiktoken`'s `encoding.encode`: a token list, or a
raised exception's message.  The tokenizer is an external dependency, so the
embedding is parameterised by it. -/
abbrev Encoding := String → Except String (List ℕ)

/-- Embeds `TokenCounter._extract_text_from_content_array`: the loop appending to
`text_parts`, then `" ".join`. -/
def extractTextFromContentArray (content_array : List ContentItem) : String :=
  let text_parts := content_array.foldl (fun acc item =>
    match item with
    | .str s => acc ++ [s]
    | .textObj t => acc ++ [t]
    | .other => acc) ([] : List String)
  String.intercalate " " text_parts

/-- The strings appended to `text_parts` for one message inside the loop of
`TokenCounter._count_messages_approximate`: the `<role>` marker, then the
content segment when there is one (string content always; array content only
when the extracted text is non-empty — Python truthiness; any other content
value never). -/
def messageParts (message : Message) : List String :=
  let role_text := "<" ++ message.role ++ ">"
  match message.content with
  | .str s => [role_text, s]
  | .arr items =>
    let content_text := extractTextFromContentArray items
    if content_text = "" then [role_text] else [role_text, content_text]
  | .other => [role_text]

/-- The `full_text` built by `TokenCounter._count_messages_approximate`. -/
def approxFullText (messages : List Message) : String :=
  String.intercalate "\n\n" (messages.flatMap messageParts)

/-- Embeds `TokenCounter._count_messages_approximate` proper: encode the flat text
and count the tokens (an encoding exception propagates to the caller). -/
def countMessagesApproximate (encoding : Encoding) (messages : List Message) :
    Except String ℕ :=
  (encoding (approxFullText messages)).map List.length

/-- Embeds `TokenCounter._count_gpt4o_tokens`, parameterised by the outcome of
`tiktoken.encoding_for_model("gpt-4o")` (`.error` = the exception raised
while loading the encoding). -/
def countGpt4oTokens (load : Except String Encoding) (input_data : InputData) :
    CountingResult :=
  match load with
  | .error e =>
    { model := "gpt-4o", input_tokens := 0
      error := some ("Failed to load tiktoken encoding: " ++ e) }
  | .ok encoding =>
    match input_data.messages with
    | some messages =>
      match countMessagesApproximate encoding messages with
      | .ok token_count =>
        { model := "gpt-4o", input_tokens := (token_count : ℤ), is_approximate := true }
      | .error e =>
        { model := "gpt-4o", input_tokens := 0
          error := some ("Token encoding failed: " ++ e) }
    | none =>
      match (encoding input_data.content).map List.length with
      | .ok token_count =>
        { model := "gpt-4o", input_tokens := (token_count : ℤ), is_approximate := false }
      | .error e =>
        { model := "gpt-4o", input_tokens := 0
          error := some ("Token encoding failed: " ++ e) }

/-- Embeds `TokenCounter._count_local_tokens`. -/
def countLocalTokens (load : Except String Encoding) (input_data : InputData)
    (model : ModelDefinition) : CountingResult :=
  if model.name = "gpt-4o" then countGpt4oTokens load input_data
  else
    { model := model.name, input_tokens := 0
      error := some ("Local counting not supported for model: " ++ model.name) }

/-- Embeds `TokenCounter._count_provider_tokens`. -/
def countProviderTokens (input_data : InputData) (model : ModelDefinition) :
    CountingResult :=
  { model := model.name, input_tokens := 0
    error := some "Provider token counting not yet implemented" }

/-- Embeds `TokenCounter.count_tokens`.  The enclosing `try/except` catches
exceptions escaping the branches; every exception of the embedded code is
already reflected in a returned `CountingResult`, so the guard needs no
separate branch in the embedding. -/
def count_tokens (load : Except String Encoding) (input_data : InputData)
    (model : ModelDefinition) : CountingResult :=
  if model.tokenizer_type = "local" then countLocalTokens load input_data model
  else if model.tokenizer_type = "provider" then countProviderTokens input_data model
  else
    { model := model.name, input_tokens := 0
      error := some ("Unknown tokenizer type: " ++ model.tokenizer_type) }

/-! ## Spec-side definitions, for the refinement claims

These follow the wording of `spec.md` and are compared against the
definitions translated from the code. -/

/-- Spec: round to 2 decimal places with round-half-up tie-breaking. -/
def specRoundHalfUp2 (q : ℚ) : ℚ := (⌊100 * q + 1 / 2⌋ : ℚ) / 100

/-- Spec: from a content item take a plain string itself, or a string-valued
`text` field of a tagged object, and nothing otherwise. -/
def specItemText : ContentItem → Option String
  | .str s => some s
  | .textObj t => some t
  | .other => none

/-- Spec: the extracted fragments joined with single spaces. -/
def specExtract (items : List ContentItem) : String :=
  String.intercalate " " (items.filterMap specItemText)

/-- Spec: the segments of one message — the `<role>` marker, then the
extractable text as its own segment (an empty extraction contributes no
segment). -/
def specSegments (m : Message) : List String :=
  ("<" ++ m.role ++ ">") ::
    (match m.content with
     | .str s => [s]
     | .arr items => if specExtract items = "" then [] else [specExtract items]
     | .other => [])

/-- Spec: the flat string — all segments of all messages in order, joined
with a double-newline separator. -/
def specFullText (messages : List Message) : String :=
  String.intercalate "\n\n" (messages.flatMap specSegments)

/-! ## Helper lemmas -/

theorem checkThresholds_error (p : ℚ) (t : ℤ) :
    (checkThresholds p t).2 =
      if p ≥ 95 / 100 ∨ t < 0 then some "error: exceeds budget" else none := by
  unfold checkThresholds
  split_ifs <;> rfl

theorem checkThresholds_warning (p : ℚ) (t : ℤ) :
    (checkThresholds p t).1 =
      if ¬(p ≥ 95 / 100 ∨ t < 0) ∧ p ≥ 80 / 100 then some "warning: near limit"
      else none := by
  unfold checkThresholds
  split_ifs <;> simp_all

theorem analyze_budget_of_error_none (cr : CountingResult) (model : ModelDefinition)
    (config : CLIConfig) (h : cr.error = none) :
    analyze_budget cr model config =
      { model := model.name
        input_tokens := cr.input_tokens
        context_limit := model.context_limit
        effective_limit := calculateEffectiveLimit model config
        reserve := calculateReserve (calculateEffectiveLimit model config) config
        remaining_tokens := calculateEffectiveLimit model config -
          calculateReserve (calculateEffectiveLimit model config) config - cr.input_tokens
        pct_used := pctUsedCalc cr.input_tokens (calculateEffectiveLimit model config)
        warning := (checkThresholds
          (pctUsedCalc cr.input_tokens (calculateEffectiveLimit model config))
          (calculateEffectiveLimit model config -
            calculateReserve (calculateEffectiveLimit model config) config -
            cr.input_tokens)).1
        error := (checkThresholds
          (pctUsedCalc cr.input_tokens (calculateEffectiveLimit model config))
          (calculateEffectiveLimit model config -
            calculateReserve (calculateEffectiveLimit model config) config -
            cr.input_tokens)).2
        is_approximate := cr.is_approximate } := by
  simp [analyze_budget, h, strOptTruthy]

theorem rne_nearest (q : ℚ) :
    |q - rne q| < 1 / 2 ∨ (|q - rne q| = 1 / 2 ∧ rne q % 2 = 0) := by
  have hdN : 0 < q.den := q.den_pos
  have hdz : (0 : ℤ) < (q.den : ℤ) := by exact_mod_cast hdN
  set f : ℤ := q.num / (q.den : ℤ) with hf
  set r : ℤ := q.num % (q.den : ℤ) with hr
  have hr0 : (0 : ℤ) ≤ r := Int.emod_nonneg q.num hdz.ne'
  have hrd : r < (q.den : ℤ) := Int.emod_lt_of_pos q.num hdz
  have hD : (0 : ℚ) < (q.den : ℚ) := by exact_mod_cast hdN
  have hnum : (q.num : ℚ) = (q.den : ℚ) * (f : ℚ) + (r : ℚ) := by
    exact_mod_cast (Int.ediv_add_emod q.num (q.den : ℤ)).symm
  have hq : q = (f : ℚ) + (r : ℚ) / (q.den : ℚ) := by
    calc q = (q.num : ℚ) / (q.den : ℚ) := (Rat.num_div_den q).symm
    _ = ((q.den : ℚ) * (f : ℚ) + (r : ℚ)) / (q.den : ℚ) := by rw [hnum]
    _ = (f : ℚ) + (r : ℚ) / (q.den : ℚ) := by
        rw [add_div, mul_div_cancel_left₀ _ hD.ne']
  set c : ℚ := (r : ℚ) / (q.den : ℚ) with hc
  have hc0 : 0 ≤ c := div_nonneg (by exact_mod_cast hr0) hD.le
  have hc1 : c < 1 := by
    rw [hc, div_lt_one hD]
    exact_mod_cast hrd
  have hlt : 2 * r < (q.den : ℤ) ↔ c < 1 / 2 := by
    rw [hc, div_lt_div_iff₀ hD (by norm_num : (0:ℚ) < 2), one_mul]
    constructor
    · intro hx
      have hx' : 2 * (r : ℚ) < (q.den : ℚ) := by exact_mod_cast hx
      linarith
    · intro hx
      have hx' : 2 * (r : ℚ) < (q.den : ℚ) := by linarith
      exact_mod_cast hx'
  have hgt : (q.den : ℤ) < 2 * r ↔ 1 / 2 < c := by
    rw [hc, div_lt_div_iff₀ (by norm_num : (0:ℚ) < 2) hD, one_mul]
    constructor
    · intro hx
      have hx' : (q.den : ℚ) < 2 * (r : ℚ) := by exact_mod_cast hx
      linarith
    · intro hx
      have hx' : (q.den : ℚ) < 2 * (r : ℚ) := by linarith
      exact_mod_cast hx'
  unfold rne
  rw [← hf, ← hr]
  split_ifs with h1 h2 h3
  · left
    rw [abs_lt]
    have := hlt.1 h1
    constructor <;> linarith
  · left
    push_cast
    rw [abs_lt]
    have := hgt.1 h2
    constructor <;> linarith
  · right
    have htie : c = 1 / 2 := by
      have a1 := hlt.2
      have a2 := hgt.2
      by_contra hne
      rcases lt_or_gt_of_ne hne with hx | hx
      · exact h1 (a1 hx)
      · exact h2 (a2 hx)
    refine ⟨?_, h3⟩
    rw [abs_of_nonneg (by linarith : (0:ℚ) ≤ q - (f : ℚ))]
    linarith
  · right
    have htie : c = 1 / 2 := by
      have a1 := hlt.2
      have a2 := hgt.2
      by_contra hne
      rcases lt_or_gt_of_ne hne with hx | hx
      · exact h1 (a1 hx)
      · exact h2 (a2 hx)
    constructor
    · push_cast
      rw [show q - ((f : ℚ) + 1) = -(1/2) by linarith]
      norm_num
    · omega

theorem ratTrunc_eq_floor (q : ℚ) (h : 0 ≤ q) : ratTrunc q = ⌊q⌋ := by
  unfold ratTrunc
  rw [if_pos (Rat.num_nonneg.2 h)]
  exact Rat.floor_def.symm

theorem toDouble_zero : toDouble 0 = 0 := by
  simp [toDouble]

theorem twoPow_pos (e : ℤ) : 0 < twoPow e := by
  unfold twoPow
  split_ifs
  · exact_mod_cast pow_pos (by norm_num : (0 : ℕ) < 2) e.toNat
  · have : (0 : ℚ) < ((2 ^ (-e).toNat : ℕ) : ℚ) := by
      exact_mod_cast pow_pos (by norm_num : (0 : ℕ) < 2) (-e).toNat
    positivity

theorem rne_nonneg (q : ℚ) (h : 0 ≤ q) : 0 ≤ rne q := by
  have hn : 0 ≤ q.num := Rat.num_nonneg.2 h
  have hd : (0 : ℤ) < (q.den : ℤ) := by exact_mod_cast q.den_pos
  have hf : 0 ≤ q.num / (q.den : ℤ) := Int.ediv_nonneg hn hd.le
  unfold rne
  split_ifs <;> omega

theorem toDouble_nonneg (q : ℚ) (h : 0 ≤ q) : 0 ≤ toDouble q := by
  simp only [toDouble]
  rcases eq_or_lt_of_le h with h0 | h0
  · rw [if_pos h0.symm]
  · rw [if_neg h0.ne', if_neg (not_lt.2 h0.le), if_pos h0, one_mul]
    exact mul_nonneg
      (by exact_mod_cast rne_nonneg _ (mul_nonneg h0.le (twoPow_pos _).le))
      (twoPow_pos _).le

theorem checkThresholds_not_both (p : ℚ) (t : ℤ) :
    ¬((checkThresholds p t).1 ≠ none ∧ (checkThresholds p t).2 ≠ none) := by
  unfold checkThresholds
  split_ifs <;> simp

theorem extract_foldl (items : List ContentItem) (acc : List String) :
    items.foldl (fun acc item =>
      match item with
      | .str s => acc ++ [s]
      | .textObj t => acc ++ [t]
      | .other => acc) acc = acc ++ items.filterMap specItemText := by
  induction items generalizing acc with
  | nil => simp
  | cons hd tl ih =>
    cases hd <;> simp [specItemText, ih, List.filterMap_cons]

theorem extractText_eq_specExtract (items : List ContentItem) :
    extractTextFromContentArray items = specExtract items := by
  simp only [extractTextFromContentArray, specExtract]
  rw [extract_foldl]
  simp

theorem messageParts_eq_specSegments (m : Message) :
    messageParts m = specSegments m := by
  obtain ⟨role, content⟩ := m
  cases content with
  | str s => rfl
  | arr items =>
    simp only [messageParts, specSegments, extractText_eq_specExtract]
    split_ifs <;> rfl
  | other => rfl

theorem approxFullText_eq_specFullText (messages : List Message) :
    approxFullText messages = specFullText messages := by
  unfold approxFullText specFullText
  rw [funext messageParts_eq_specSegments]

theorem gpt4o_error_zero (load : Except String Encoding) (input_data : InputData)
    (h : (countGpt4oTokens load input_data).error ≠ none) :
    (countGpt4oTokens load input_data).input_tokens = 0 := by
  rcases load with e | enc
  · rfl
  · rcases hm : input_data.messages with _ | msgs
    · rcases he : Except.map List.length (enc input_data.content) with e2 | n
      · simp [countGpt4oTokens, hm, he]
      · simp [countGpt4oTokens, hm, he] at h
    · rcases he : countMessagesApproximate enc msgs with e2 | n
      · simp [countGpt4oTokens, hm, he]
      · simp [countGpt4oTokens, hm, he] at h

/-! ## Claim theorems -/

/-- Claim C7: for every model and config (on the normal, error-free path),
the effective limit computed by `analyze_budget` is `model.context_limit`
when no `max_tokens` override is supplied and `min context_limit override`
when one is; in particular it never exceeds `model.context_limit`. -/
theorem effective_limit_min (cr : CountingResult) (model : ModelDefinition)
    (config : CLIConfig) (h : cr.error = none) :
    ((config.max_tokens = none →
        (analyze_budget cr model config).effective_limit = model.context_limit) ∧
      (∀ mt : ℤ, config.max_tokens = some mt →
        (analyze_budget cr model config).effective_limit = min model.context_limit mt) ∧
      (analyze_budget cr model config).effective_limit ≤ model.context_limit) := by
  rw [analyze_budget_of_error_none cr model config h]
  refine ⟨?_, ?_, ?_⟩
  · intro hmt
    show calculateEffectiveLimit model config = _
    unfold calculateEffectiveLimit
    rw [hmt]
  · intro mt hmt
    show calculateEffectiveLimit model config = _
    unfold calculateEffectiveLimit
    rw [hmt]
  · show calculateEffectiveLimit model config ≤ _
    unfold calculateEffectiveLimit
    cases config.max_tokens with
    | none => exact le_refl _
    | some mt => exact min_le_left _ _

/-- Witness for C7 at a concrete input with an override smaller than the
context limit. -/
theorem effective_limit_min_witness :
    (({ model := "gpt-4o", input_tokens := 100 : CountingResult }).error = none) ∧
    ((analyze_budget { model := "gpt-4o", input_tokens := 100 }
        ⟨"gpt-4o", 128000, "local"⟩
        ⟨["gpt-4o"], some 5000, some 0, 0, false⟩).effective_limit =
      min (128000 : ℤ) 5000) ∧
    ((analyze_budget { model := "gpt-4o", input_tokens := 100 }
        ⟨"gpt-4o", 128000, "local"⟩
        ⟨["gpt-4o"], some 5000, some 0, 0, false⟩).effective_limit ≤ 128000) :=
  ⟨rfl,
    (effective_limit_min { model := "gpt-4o", input_tokens := 100 }
      ⟨"gpt-4o", 128000, "local"⟩ ⟨["gpt-4o"], some 5000, some 0, 0, false⟩ rfl).2.1
      5000 rfl,
    (effective_limit_min { model := "gpt-4o", input_tokens := 100 }
      ⟨"gpt-4o", 128000, "local"⟩ ⟨["gpt-4o"], some 5000, some 0, 0, false⟩ rfl).2.2⟩

set_option maxRecDepth 4000 in
/-- Counterexample to claim C5 as stated: at effective limit 100000 with
`reserve_pct` the double of 0.7 (= 3152519739159347/2^52, just below 7/10),
the double multiplication rounds the product 69999.9999999999955… up to
exactly 70000.0, so the program computes `int(70000.0) = 70000`, one more
than the floor 69999 of the exact product the claim prescribes. -/
theorem reserve_exact_floor_counterexample :
    (analyze_budget { model := "gpt-4o", input_tokens := 0 }
        ⟨"gpt-4o", 100000, "local"⟩
        ⟨["gpt-4o"], none, none, 3152519739159347 / 4503599627370496, false⟩).reserve =
      70000 ∧
    ⌊(100000 : ℚ) * (3152519739159347 / 4503599627370496)⌋ = 69999 ∧
    (70000 : ℤ) ≠ 69999 := by
  refine ⟨by decide, ?_, by decide⟩
  rw [Int.floor_eq_iff]
  constructor <;> norm_num

/-- Claim C5 (amended): on the error-free path the reserve is the absolute
`config.reserve` when present, and otherwise the truncation toward zero —
equal to the floor, the product being non-negative — of the IEEE-754 double
product of the effective limit and `reserve_pct` (the limit converted to the
nearest double, the multiplication rounded to the nearest double, `int()`
applied); when that final rounding does not cross an integer this is the
floor of the exact product, e.g. `reserve_pct = 1.0` on an effective limit
of 1000 gives exactly 1000, but it can cross, as the counterexample shows. -/
theorem reserve_absolute_or_floor (cr : CountingResult) (model : ModelDefinition)
    (config : CLIConfig) (h : cr.error = none)
    (hL : 0 ≤ calculateEffectiveLimit model config)
    (hp : 0 ≤ config.reserve_pct) :
    (analyze_budget cr model config).reserve =
      match config.reserve with
      | some r => r
      | none =>
        ⌊toDouble (toDouble (calculateEffectiveLimit model config : ℚ) *
          config.reserve_pct)⌋ := by
  rw [analyze_budget_of_error_none cr model config h]
  show calculateReserve (calculateEffectiveLimit model config) config = _
  unfold calculateReserve
  cases config.reserve with
  | some r => rfl
  | none =>
    exact ratTrunc_eq_floor _ (toDouble_nonneg _
      (mul_nonneg (toDouble_nonneg _ (by exact_mod_cast hL)) hp))

/-- Witness for the amended C5: `reserve_pct = 1.0` on an effective limit of
1000 gives reserve exactly 1000. -/
theorem reserve_absolute_or_floor_witness :
    (({ model := "gpt-4o", input_tokens := 0 : CountingResult }).error = none ∧
      0 ≤ calculateEffectiveLimit ⟨"gpt-4o", 1000, "local"⟩ ⟨["gpt-4o"], none, none, 1, false⟩ ∧
      (0 : ℚ) ≤ 1) ∧
    (analyze_budget { model := "gpt-4o", input_tokens := 0 }
        ⟨"gpt-4o", 1000, "local"⟩ ⟨["gpt-4o"], none, none, 1, false⟩).reserve = 1000 := by
  refine ⟨⟨rfl, by decide, by norm_num⟩, ?_⟩
  rw [reserve_absolute_or_floor { model := "gpt-4o", input_tokens := 0 }
    ⟨"gpt-4o", 1000, "local"⟩ ⟨["gpt-4o"], none, none, 1, false⟩ rfl (by decide) (by norm_num)]
  show ⌊toDouble (toDouble ((calculateEffectiveLimit ⟨"gpt-4o", 1000, "local"⟩
    ⟨["gpt-4o"], none, none, 1, false⟩ : ℤ) : ℚ) * 1)⌋ = 1000
  rw [show toDouble (toDouble ((calculateEffectiveLimit ⟨"gpt-4o", 1000, "local"⟩
    ⟨["gpt-4o"], none, none, 1, false⟩ : ℤ) : ℚ) * 1) = (1000 : ℚ) from by decide]
  norm_num

/-- Claim C4: a truthy counting error short-circuits `analyze_budget` into
the fixed error record (token count 0, effective limit = context limit,
reserve 0, remaining 0, percent 0, the counting error copied verbatim, no
warning, `is_approximate` copied). -/
theorem counting_error_short_circuit (cr : CountingResult) (model : ModelDefinition)
    (config : CLIConfig) (e : String) (h : cr.error = some e) (hne : e ≠ "") :
    analyze_budget cr model config =
      { model := model.name, input_tokens := 0, context_limit := model.context_limit,
        effective_limit := model.context_limit, reserve := 0, remaining_tokens := 0,
        pct_used := 0, warning := none, error := some e,
        is_approximate := cr.is_approximate } := by
  unfold analyze_budget
  rw [h]
  simp [strOptTruthy, hne]

/-- Witness for C4 at a concrete erroring counting outcome. -/
theorem counting_error_short_circuit_witness :
    (({ model := "m", input_tokens := 7, error := some "boom",
        is_approximate := true : CountingResult }).error = some "boom" ∧
      ("boom" : String) ≠ "") ∧
    analyze_budget
        { model := "m", input_tokens := 7, error := some "boom", is_approximate := true }
        ⟨"claude-3-5-sonnet", 200000, "provider"⟩
        ⟨["claude-3-5-sonnet"], none, none, 1/5, false⟩ =
      { model := "claude-3-5-sonnet", input_tokens := 0, context_limit := 200000,
        effective_limit := 200000, reserve := 0, remaining_tokens := 0, pct_used := 0,
        warning := none, error := some "boom", is_approximate := true } :=
  ⟨⟨rfl, by decide⟩,
    counting_error_short_circuit _ _ _ "boom" rfl (by decide)⟩

/-- Counterexample to claim C6 as stated: with `context_limit = 0`,
`tokenCount = 0` and an absolute reserve of 1, `percentUsed` is 0.0 but the
error is still set (`remaining_tokens = -1 < 0`), so "neither warning nor
error set" fails. -/
theorem zero_limit_zero_tokens_counterexample :
    (analyze_budget { model := "m", input_tokens := 0 }
        ⟨"m", 0, "local"⟩ ⟨["m"], none, some 1, 1/5, false⟩).pct_used = 0 ∧
    (analyze_budget { model := "m", input_tokens := 0 }
        ⟨"m", 0, "local"⟩ ⟨["m"], none, some 1, 1/5, false⟩).error =
      some "error: exceeds budget" := by
  constructor
  · decide
  · decide

/-- Claim C6 (amended): on the error-free path with effective limit 0 —
if `tokenCount = 0` then `percentUsed` is 0.0, no warning, and no error
provided the configured absolute reserve is zero or absent; if
`tokenCount > 0` then `percentUsed` is the sentinel 999.99 and the error is
set. -/
theorem zero_effective_limit_pct (cr : CountingResult) (model : ModelDefinition)
    (config : CLIConfig) (h : cr.error = none)
    (hL : calculateEffectiveLimit model config = 0) :
    ((cr.input_tokens = 0 →
        (analyze_budget cr model config).pct_used = 0 ∧
        (analyze_budget cr model config).warning = none ∧
        (config.reserve.getD 0 = 0 → (analyze_budget cr model config).error = none)) ∧
      (0 < cr.input_tokens →
        (analyze_budget cr model config).pct_used = 99999 / 100 ∧
        (analyze_budget cr model config).error = some "error: exceeds budget")) := by
  rw [analyze_budget_of_error_none cr model config h]
  have hres : calculateReserve (calculateEffectiveLimit model config) config =
      config.reserve.getD 0 := by
    unfold calculateReserve
    cases config.reserve with
    | some r => rfl
    | none =>
      rw [hL]
      show ratTrunc (toDouble (toDouble ((0 : ℤ) : ℚ) * config.reserve_pct)) = 0
      rw [Int.cast_zero, toDouble_zero, zero_mul, toDouble_zero]
      decide
  constructor
  · intro h0
    refine ⟨?_, ?_, ?_⟩
    · show pctUsedCalc cr.input_tokens (calculateEffectiveLimit model config) = 0
      simp [pctUsedCalc, hL, h0]
    · show (checkThresholds _ _).1 = none
      rw [checkThresholds_warning, if_neg]
      rintro ⟨-, hc⟩
      simp [pctUsedCalc, hL, h0] at hc
      norm_num at hc
    · intro hz
      show (checkThresholds _ _).2 = none
      rw [checkThresholds_error, if_neg]
      rintro (hc | hc)
      · simp [pctUsedCalc, hL, h0] at hc
        norm_num at hc
      · rw [hres, hz, hL, h0] at hc
        norm_num at hc
  · intro hpos
    constructor
    · show pctUsedCalc cr.input_tokens (calculateEffectiveLimit model config) = 99999 / 100
      simp [pctUsedCalc, hL, hpos.ne']
    · show (checkThresholds _ _).2 = some "error: exceeds budget"
      rw [checkThresholds_error, if_pos]
      left
      show pctUsedCalc cr.input_tokens (calculateEffectiveLimit model config) ≥ 95 / 100
      simp only [pctUsedCalc, hL, if_pos rfl, hpos.ne', if_neg]
      norm_num

/-- Witness for the amended C6 at `context_limit = 0`, `tokenCount = 0`,
percentage-based reserve. -/
theorem zero_effective_limit_pct_witness :
    (({ model := "m", input_tokens := 0 : CountingResult }).error = none ∧
      calculateEffectiveLimit ⟨"m", 0, "local"⟩ ⟨["m"], none, none, 1/5, false⟩ = 0) ∧
    ((analyze_budget { model := "m", input_tokens := 0 }
        ⟨"m", 0, "local"⟩ ⟨["m"], none, none, 1/5, false⟩).pct_used = 0 ∧
      (analyze_budget { model := "m", input_tokens := 0 }
        ⟨"m", 0, "local"⟩ ⟨["m"], none, none, 1/5, false⟩).warning = none ∧
      (analyze_budget { model := "m", input_tokens := 0 }
        ⟨"m", 0, "local"⟩ ⟨["m"], none, none, 1/5, false⟩).error = none) := by
  have h := (zero_effective_limit_pct { model := "m", input_tokens := 0 }
    ⟨"m", 0, "local"⟩ ⟨["m"], none, none, 1/5, false⟩ rfl (by decide)).1 rfl
  exact ⟨⟨rfl, by decide⟩, h.1, h.2.1, h.2.2 (by decide)⟩

/-- Counterexample to claim C1 as stated: at `tokenCount = 1`,
`effectiveLimit = 8` the true ratio 1/8 = 0.125 is an exact double and an
exact two-decimal tie; CPython's `round` resolves it to the even hundredth,
yielding 0.12, while round-half-up yields 0.13. -/
theorem pct_round_half_up_counterexample :
    (analyze_budget { model := "gpt-4o", input_tokens := 1 }
        ⟨"gpt-4o", 8, "local"⟩ ⟨["gpt-4o"], none, some 0, 0, false⟩).pct_used = 12 / 100 ∧
    specRoundHalfUp2 ((1 : ℚ) / 8) = 13 / 100 ∧
    (12 : ℚ) / 100 ≠ 13 / 100 := by
  refine ⟨by decide, ?_, by norm_num⟩
  unfold specRoundHalfUp2
  norm_num

/-- Claim C1 (amended): on the error-free path with non-zero effective
limit, `percentUsed` is `k/100` where `k` is the integer nearest to
100 times the double-precision value of `tokenCount / effectiveLimit`, with
a tie going to the even `k` (CPython `round` semantics) — not round-half-up. -/
theorem pct_used_half_even (cr : CountingResult) (model : ModelDefinition)
    (config : CLIConfig) (h : cr.error = none)
    (hL : calculateEffectiveLimit model config ≠ 0) :
    ∃ k : ℤ, (analyze_budget cr model config).pct_used = (k : ℚ) / 100 ∧
      (|100 * toDouble ((cr.input_tokens : ℚ) /
          (calculateEffectiveLimit model config : ℚ)) - (k : ℚ)| < 1 / 2 ∨
        (|100 * toDouble ((cr.input_tokens : ℚ) /
            (calculateEffectiveLimit model config : ℚ)) - (k : ℚ)| = 1 / 2 ∧
          k % 2 = 0)) := by
  refine ⟨rne (100 * toDouble ((cr.input_tokens : ℚ) /
    (calculateEffectiveLimit model config : ℚ))), ?_, ?_⟩
  · rw [analyze_budget_of_error_none cr model config h]
    show pctUsedCalc cr.input_tokens (calculateEffectiveLimit model config) = _
    unfold pctUsedCalc
    rw [if_neg hL]
    rfl
  · exact rne_nearest (100 * toDouble ((cr.input_tokens : ℚ) /
      (calculateEffectiveLimit model config : ℚ)))

/-- Witness for the amended C1 at the spec's own example 335/1000, where the
result is 0.34. -/
theorem pct_used_half_even_witness :
    (({ model := "gpt-4o", input_tokens := 335 : CountingResult }).error = none ∧
      calculateEffectiveLimit ⟨"gpt-4o", 1000, "local"⟩
        ⟨["gpt-4o"], none, some 0, 0, false⟩ ≠ 0) ∧
    (∃ k : ℤ, (analyze_budget { model := "gpt-4o", input_tokens := 335 }
        ⟨"gpt-4o", 1000, "local"⟩ ⟨["gpt-4o"], none, some 0, 0, false⟩).pct_used =
          (k : ℚ) / 100 ∧
      (|100 * toDouble (((335 : ℤ) : ℚ) /
          (calculateEffectiveLimit ⟨"gpt-4o", 1000, "local"⟩
            ⟨["gpt-4o"], none, some 0, 0, false⟩ : ℚ)) - (k : ℚ)| < 1 / 2 ∨
        (|100 * toDouble (((335 : ℤ) : ℚ) /
            (calculateEffectiveLimit ⟨"gpt-4o", 1000, "local"⟩
              ⟨["gpt-4o"], none, some 0, 0, false⟩ : ℚ)) - (k : ℚ)| = 1 / 2 ∧
          k % 2 = 0))) ∧
    (analyze_budget { model := "gpt-4o", input_tokens := 335 }
        ⟨"gpt-4o", 1000, "local"⟩ ⟨["gpt-4o"], none, some 0, 0, false⟩).pct_used =
      34 / 100 :=
  ⟨⟨rfl, by decide⟩,
    pct_used_half_even { model := "gpt-4o", input_tokens := 335 }
      ⟨"gpt-4o", 1000, "local"⟩ ⟨["gpt-4o"], none, some 0, 0, false⟩ rfl (by decide),
    by decide⟩

/-- Claim C2: on the error-free path, the error field is set (to
"error: exceeds budget") iff `pct_used ≥ 0.95` or `remaining_tokens < 0`;
otherwise the warning ("warning: near limit") is set iff `pct_used ≥ 0.80`;
warning and error are never both set. -/
theorem threshold_classification (cr : CountingResult) (model : ModelDefinition)
    (config : CLIConfig) (h : cr.error = none) :
    ((analyze_budget cr model config).error =
        (if (analyze_budget cr model config).pct_used ≥ 95 / 100 ∨
            (analyze_budget cr model config).remaining_tokens < 0
         then some "error: exceeds budget" else none)) ∧
      ((analyze_budget cr model config).warning =
        (if ¬((analyze_budget cr model config).pct_used ≥ 95 / 100 ∨
              (analyze_budget cr model config).remaining_tokens < 0) ∧
            (analyze_budget cr model config).pct_used ≥ 80 / 100
         then some "warning: near limit" else none)) ∧
      ¬((analyze_budget cr model config).warning ≠ none ∧
        (analyze_budget cr model config).error ≠ none) := by
  rw [analyze_budget_of_error_none cr model config h]
  refine ⟨?_, ?_, ?_⟩
  · exact checkThresholds_error _ _
  · exact checkThresholds_warning _ _
  · exact checkThresholds_not_both _ _


/-- Witness for C2 at a concrete input where the error threshold fires. -/
theorem threshold_classification_witness :
    (({ model := "gpt-4o", input_tokens := 990 : CountingResult }).error = none) ∧
    ((analyze_budget { model := "gpt-4o", input_tokens := 990 }
        ⟨"gpt-4o", 1000, "local"⟩ ⟨["gpt-4o"], none, some 0, 0, false⟩).error =
        (if (analyze_budget { model := "gpt-4o", input_tokens := 990 }
            ⟨"gpt-4o", 1000, "local"⟩ ⟨["gpt-4o"], none, some 0, 0, false⟩).pct_used ≥ 95 / 100 ∨
            (analyze_budget { model := "gpt-4o", input_tokens := 990 }
              ⟨"gpt-4o", 1000, "local"⟩ ⟨["gpt-4o"], none, some 0, 0, false⟩).remaining_tokens < 0
         then some "error: exceeds budget" else none)) ∧
      ((analyze_budget { model := "gpt-4o", input_tokens := 990 }
          ⟨"gpt-4o", 1000, "local"⟩ ⟨["gpt-4o"], none, some 0, 0, false⟩).warning =
        (if ¬((analyze_budget { model := "gpt-4o", input_tokens := 990 }
              ⟨"gpt-4o", 1000, "local"⟩ ⟨["gpt-4o"], none, some 0, 0, false⟩).pct_used ≥ 95 / 100 ∨
              (analyze_budget { model := "gpt-4o", input_tokens := 990 }
                ⟨"gpt-4o", 1000, "local"⟩ ⟨["gpt-4o"], none, some 0, 0, false⟩).remaining_tokens < 0) ∧
            (analyze_budget { model := "gpt-4o", input_tokens := 990 }
              ⟨"gpt-4o", 1000, "local"⟩ ⟨["gpt-4o"], none, some 0, 0, false⟩).pct_used ≥ 80 / 100
         then some "warning: near limit" else none)) ∧
      ¬((analyze_budget { model := "gpt-4o", input_tokens := 990 }
          ⟨"gpt-4o", 1000, "local"⟩ ⟨["gpt-4o"], none, some 0, 0, false⟩).warning ≠ none ∧
        (analyze_budget { model := "gpt-4o", input_tokens := 990 }
          ⟨"gpt-4o", 1000, "local"⟩ ⟨["gpt-4o"], none, some 0, 0, false⟩).error ≠ none) :=
  ⟨rfl, threshold_classification { model := "gpt-4o", input_tokens := 990 }
    ⟨"gpt-4o", 1000, "local"⟩ ⟨["gpt-4o"], none, some 0, 0, false⟩ rfl⟩

/-- Claim C3: with the local strategy, the supported model name and a
structured-messages input, `count_tokens` (with any successfully loaded,
non-raising tokenizer `f`) returns the length of the encoding of the flat
string described by the spec — role markers and extracted text segments
joined with double newlines — with `is_approximate = true` and no error. -/
theorem approximate_message_counting (f : String → List ℕ) (msgs : List Message)
    (input_data : InputData) (model : ModelDefinition)
    (h1 : model.tokenizer_type = "local") (h2 : model.name = "gpt-4o")
    (h3 : input_data.messages = some msgs) :
    count_tokens (Except.ok fun s => Except.ok (f s)) input_data model =
      { model := "gpt-4o", input_tokens := ((f (specFullText msgs)).length : ℤ),
        error := none, is_approximate := true } := by
  unfold count_tokens
  rw [if_pos h1]
  unfold countLocalTokens
  rw [if_pos h2]
  unfold countGpt4oTokens
  rw [h3]
  show (match countMessagesApproximate (fun s => Except.ok (f s)) msgs with
    | .ok token_count =>
      ({ model := "gpt-4o", input_tokens := (token_count : ℤ), is_approximate := true } : CountingResult)
    | .error e =>
      { model := "gpt-4o", input_tokens := 0, error := some ("Token encoding failed: " ++ e) }) = _
  rw [show countMessagesApproximate (fun s => Except.ok (f s)) msgs =
      Except.ok (f (specFullText msgs)).length by
    unfold countMessagesApproximate
    rw [approxFullText_eq_specFullText]
    rfl]

/-- Witness for C3 at a concrete message list and tokenizer. -/
theorem approximate_message_counting_witness :
    ((⟨"gpt-4o", 128000, "local"⟩ : ModelDefinition).tokenizer_type = "local" ∧
      (⟨"gpt-4o", 128000, "local"⟩ : ModelDefinition).name = "gpt-4o" ∧
      (⟨"hi", some [⟨"user", MsgContent.str "hi"⟩,
        ⟨"assistant", MsgContent.arr [ContentItem.str "a", ContentItem.textObj "b",
          ContentItem.other]⟩], "conv.json"⟩ : InputData).messages =
        some [⟨"user", MsgContent.str "hi"⟩,
          ⟨"assistant", MsgContent.arr [ContentItem.str "a", ContentItem.textObj "b",
            ContentItem.other]⟩]) ∧
    count_tokens (Except.ok fun s => Except.ok (List.replicate s.length 7))
        ⟨"hi", some [⟨"user", MsgContent.str "hi"⟩,
          ⟨"assistant", MsgContent.arr [ContentItem.str "a", ContentItem.textObj "b",
            ContentItem.other]⟩], "conv.json"⟩
        ⟨"gpt-4o", 128000, "local"⟩ =
      { model := "gpt-4o",
        input_tokens := ((List.replicate (specFullText [⟨"user", MsgContent.str "hi"⟩,
          ⟨"assistant", MsgContent.arr [ContentItem.str "a", ContentItem.textObj "b",
            ContentItem.other]⟩]).length 7).length : ℤ),
        error := none, is_approximate := true } :=
  ⟨⟨rfl, rfl, rfl⟩,
    approximate_message_counting (fun s => List.replicate s.length 7) _ _ _ rfl rfl rfl⟩

/-- Claim C8: the dispatch errors — unknown tokenizer type, unimplemented
provider strategy, unsupported local model — each yield token count 0 and
the stated message. -/
theorem strategy_dispatch_errors (load : Except String Encoding)
    (input_data : InputData) (model : ModelDefinition) :
    ((model.tokenizer_type ≠ "local" ∧ model.tokenizer_type ≠ "provider" →
        (count_tokens load input_data model).input_tokens = 0 ∧
        (count_tokens load input_data model).error =
          some ("Unknown tokenizer type: " ++ model.tokenizer_type)) ∧
      (model.tokenizer_type = "provider" →
        (count_tokens load input_data model).input_tokens = 0 ∧
        (count_tokens load input_data model).error =
          some "Provider token counting not yet implemented") ∧
      (model.tokenizer_type = "local" → model.name ≠ "gpt-4o" →
        (count_tokens load input_data model).input_tokens = 0 ∧
        (count_tokens load input_data model).error =
          some ("Local counting not supported for model: " ++ model.name))) := by
  refine ⟨?_, ?_, ?_⟩
  · rintro ⟨hl, hp⟩
    unfold count_tokens
    rw [if_neg hl, if_neg hp]
    exact ⟨rfl, rfl⟩
  · intro hp
    have hl : model.tokenizer_type ≠ "local" := by
      rw [hp]; decide
    unfold count_tokens countProviderTokens
    rw [if_neg hl, if_pos hp]
    exact ⟨rfl, rfl⟩
  · intro hl hn
    unfold count_tokens countLocalTokens
    rw [if_pos hl, if_neg hn]
    exact ⟨rfl, rfl⟩

/-- Witness for C8: the provider strategy stub. -/
theorem strategy_dispatch_errors_witness :
    (count_tokens (Except.ok fun _ => Except.ok []) ⟨"x", none, "stdin"⟩
        ⟨"claude-3-5-sonnet", 200000, "provider"⟩).input_tokens = 0 ∧
    (count_tokens (Except.ok fun _ => Except.ok []) ⟨"x", none, "stdin"⟩
        ⟨"claude-3-5-sonnet", 200000, "provider"⟩).error =
      some "Provider token counting not yet implemented" :=
  (strategy_dispatch_errors (Except.ok fun _ => Except.ok []) ⟨"x", none, "stdin"⟩
    ⟨"claude-3-5-sonnet", 200000, "provider"⟩).2.1 rfl

/-- Claim C9: whenever `count_tokens` returns a set error message — on any
of the dispatch, encoding-load or encoding failure paths — the token count
is 0. -/
theorem error_implies_zero_tokens (load : Except String Encoding)
    (input_data : InputData) (model : ModelDefinition)
    (h : (count_tokens load input_data model).error ≠ none) :
    (count_tokens load input_data model).input_tokens = 0 := by
  unfold count_tokens countLocalTokens countProviderTokens at h ⊢
  split_ifs at h ⊢ with h1 h2 h3
  · exact gpt4o_error_zero load input_data h
  · rfl
  · rfl
  · rfl

/-- Witness for C9: an unknown-strategy model. -/
theorem error_implies_zero_tokens_witness :
    ((count_tokens (Except.ok fun _ => Except.ok []) ⟨"x", none, "stdin"⟩
        ⟨"m", 100, "weird"⟩).error ≠ none) ∧
    (count_tokens (Except.ok fun _ => Except.ok []) ⟨"x", none, "stdin"⟩
        ⟨"m", 100, "weird"⟩).input_tokens = 0 :=
  ⟨by decide, error_implies_zero_tokens _ _ _ (by decide)⟩

/-- Claim C10: a message whose content is the empty string contributes an
empty text segment after its role marker (so an extra double-newline
separator in the flat string), while a list content with empty extraction,
or a content that is neither string nor list, contributes the role marker
only. -/
theorem empty_content_segments (role : String) (items : List ContentItem) :
    messageParts ⟨role, MsgContent.str ""⟩ = ["<" ++ role ++ ">", ""] ∧
    approxFullText [⟨role, MsgContent.str ""⟩] = "<" ++ role ++ ">" ++ "\n\n" ∧
    (extractTextFromContentArray items = "" →
      messageParts ⟨role, MsgContent.arr items⟩ = ["<" ++ role ++ ">"]) ∧
    messageParts ⟨role, MsgContent.other⟩ = ["<" ++ role ++ ">"] ∧
    approxFullText [⟨role, MsgContent.other⟩] = "<" ++ role ++ ">" := by
  refine ⟨rfl, ?_, ?_, rfl, ?_⟩
  · show String.intercalate "\n\n" (["<" ++ role ++ ">", ""] ++ []) = _
    rw [List.append_nil]
    show ("<" ++ role ++ ">") ++ "\n\n" ++ "" = _
    rw [String.append_empty]
  · intro he
    simp only [messageParts, he]
    rfl
  · rfl

/-- Witness for C10: a content array with a single non-text item. -/
theorem empty_content_segments_witness :
    (extractTextFromContentArray [ContentItem.other] = "") ∧
    messageParts ⟨"user", MsgContent.arr [ContentItem.other]⟩ = ["<" ++ "user" ++ ">"] :=
  ⟨by decide,
    (empty_content_segments "user" [ContentItem.other]).2.2.1 (by decide)⟩

end TokenCounterCLI
